import Mathlib

/-!
Verification of the `apertal/image-resize` ingestion pipeline.

The repository contains two versions of the HTTP handler:
  * `src/index.js` — handler `processImage`, looks the image up by SHA-256,
    deletes unregistered originals (400), performs partial-failure cleanup of
    renditions, moves the original to `original-<name>` on success.
    Embedded here as `processImage_v0`.
  * `src/unnamed/part_001` — handler `processImage`, looks the image up by
    GCS path (404 if absent, no delete), sanitizes EXIF (deletes
    `ThumbnailImage` / `PreviewImage`), calls the
    `update_image_processing_results` RPC, performs no rendition cleanup.
    Embedded here as `processImage_v1`.
and two versions of the catalog commit stored procedure:
  * `src/applied-sb-migrations/update_function.sql` — 5 parameters
    (id, exif, processed_sizes, width, height); sets `processed_gcs_path`
    from the largest width key.  Embedded as `update_image_processing_results`.
  * `src/unnamed/part_000` — 3 parameters (id, exif, processed_sizes).
    Embedded as `update_image_processing_results_v0`.

External calls (storage, Vision, Supabase) are modelled by an oracle
environment `Env` describing each call's result; each handler is a pure
function from the environment to the observable `Outcome` of one invocation.
-/

/-- The Vision API likelihood scale, as the string constants the code
compares against (`result.safeSearchAnnotation` fields). -/
inductive Likelihood where
  | UNKNOWN
  | VERY_UNLIKELY
  | UNLIKELY
  | POSSIBLE
  | LIKELY
  | VERY_LIKELY
deriving DecidableEq, BEq, Repr

/-- The three per-category verdicts the code reads from the SafeSearch
response (`detections.adult`, `detections.violence`, `detections.racy`). -/
structure SafeSearchResult where
  adult : Likelihood
  violence : Likelihood
  racy : Likelihood
deriving DecidableEq, Repr

/-- Both versions, verbatim logic:
`['VERY_LIKELY', 'LIKELY'].some(likelihood => [detections.adult,
detections.violence, detections.racy].includes(likelihood))`. -/
def isUnsafe (d : SafeSearchResult) : Bool :=
  [Likelihood.VERY_LIKELY, Likelihood.LIKELY].any fun likelihood =>
    [d.adult, d.violence, d.racy].contains likelihood

/-- EXIF metadata mapping, modelled as an association list of
string keys to string values (the exiftool output is an open JSON object). -/
abbrev ExifMap := List (String × String)

/-- part_001, step 3:
`if (exifData.ThumbnailImage) delete exifData.ThumbnailImage;`
`if (exifData.PreviewImage) delete exifData.PreviewImage;`
(a present binary field is truthy, so a present key is always deleted);
the subsequent `JSON.parse(JSON.stringify(exifData))` is the identity on
this model.  `src/index.js` has no counterpart to this function. -/
def sanitizeExif (m : ExifMap) : ExifMap :=
  m.filter fun kv => kv.1 != "ThumbnailImage" && kv.1 != "PreviewImage"

/-- part_001 configuration parsing:
`(... || '').split(',').map(Number).filter(w => w > 0)` — the numeric
parse is taken as given, the positivity filter is embedded. -/
def parseResizeWidths_v1 (parsed : List Int) : List Int :=
  parsed.filter fun w => 0 < w

/-- index.js configuration parsing:
`(process.env.RESIZE_DIMENSIONS || '').split(',').map(Number)` — no filter
of any kind is applied to the parsed numbers. -/
def parseResizeWidths_v0 (parsed : List Int) : List Int :=
  parsed

/-- Oracle for one invocation: the actual image dimensions and the result of
every external call the handler may make.  `sourceWidth` is the measured
pixel width of the uploaded image; note no handler ever reads it. -/
structure Env where
  sourceWidth : Int
  downloadOk : Bool
  recordFound : Bool
  existingImage : Bool
  exifOk : Bool
  exif : ExifMap
  detections : SafeSearchResult
  resizeOk : Int → Bool
  cleanupOk : Int → Bool
  rpcOk : Bool
  moveOk : Bool

/-- Observable result of one invocation: HTTP status, what happened to the
source object, which rendition objects (identified by their target width,
which determines the deterministic destination path) exist in the
destination bucket afterwards, whether the catalog commit RPC was invoked,
whether the rendition step ran, and the metadata payload (if any) sent to
the datastore. -/
structure Outcome where
  status : Nat
  sourceDeleted : Bool
  sourceMoved : Bool
  destWidths : List Int
  commitCalled : Bool
  renditionsAttempted : Bool
  exifPayload : Option ExifMap
deriving DecidableEq, Repr

/-- Outcome of a thrown error reaching the catch block: `res.status(500)`. -/
def errorOutcome : Outcome :=
  { status := 500, sourceDeleted := false, sourceMoved := false,
    destWidths := [], commitCalled := false, renditionsAttempted := false,
    exifPayload := none }

/-- Handler of `src/unnamed/part_001`.  Steps, in source order:
1 download; 2 find record by `gcs_file_path` (`findError || !imageRecord`
→ 404, source untouched); 3 EXIF extraction + sanitization; 4 SafeSearch
(unsafe → delete source, 200); 5 resize fan-out over `RESIZE_WIDTHS` via
`Promise.all` — on any failure the error propagates with NO cleanup, so
renditions whose upload succeeded persist; 6 RPC
`update_image_processing_results` with the sanitized EXIF and the size map
(error → throw → 500, renditions persist); 7 move original to
`originals/<basename>` (error → throw → 500); then 200. -/
def processImage_v1 (RESIZE_WIDTHS : List Int) (env : Env) : Outcome :=
  if env.downloadOk then
    if env.recordFound then
      if env.exifOk then
        if isUnsafe env.detections then
          { status := 200, sourceDeleted := true, sourceMoved := false,
            destWidths := [], commitCalled := false,
            renditionsAttempted := false, exifPayload := none }
        else
          let uploaded := RESIZE_WIDTHS.filter env.resizeOk
          if RESIZE_WIDTHS.all env.resizeOk then
            if env.rpcOk then
              if env.moveOk then
                { status := 200, sourceDeleted := false, sourceMoved := true,
                  destWidths := RESIZE_WIDTHS, commitCalled := true,
                  renditionsAttempted := true,
                  exifPayload := some (sanitizeExif env.exif) }
              else
                { status := 500, sourceDeleted := false, sourceMoved := false,
                  destWidths := RESIZE_WIDTHS, commitCalled := true,
                  renditionsAttempted := true,
                  exifPayload := some (sanitizeExif env.exif) }
            else
              { status := 500, sourceDeleted := false, sourceMoved := false,
                destWidths := RESIZE_WIDTHS, commitCalled := true,
                renditionsAttempted := true,
                exifPayload := some (sanitizeExif env.exif) }
          else
            { status := 500, sourceDeleted := false, sourceMoved := false,
              destWidths := uploaded, commitCalled := false,
              renditionsAttempted := true, exifPayload := none }
      else errorOutcome
    else
      { status := 404, sourceDeleted := false, sourceMoved := false,
        destWidths := [], commitCalled := false,
        renditionsAttempted := false, exifPayload := none }
  else errorOutcome

/-- Handler of `src/index.js`.  Steps, in source order:
1 download; 2 SHA-256 hash (pure, always succeeds); 3 EXIF extraction, no
sanitization; 4 select by `sha256` — `!existingImage` → DELETE the original
and return 400; 5 SafeSearch (unsafe → delete source, 200); 6 Supabase
update `exif: exifData` with the RAW mapping, errors swallowed; 7 resize
fan-out with success/failure partitioning — on any failure, every
successfully created image name is deleted from the destination bucket
(each delete individually best-effort: a `deleteError` is logged and the
object remains), then the error is rethrown → 500; 8 move original to
`original-<name>` (error → throw → 500); then 200.  This version never
calls the commit RPC. -/
def processImage_v0 (RESIZE_WIDTHS : List Int) (env : Env) : Outcome :=
  if env.downloadOk then
    if env.exifOk then
      if env.existingImage then
        if isUnsafe env.detections then
          { status := 200, sourceDeleted := true, sourceMoved := false,
            destWidths := [], commitCalled := false,
            renditionsAttempted := false, exifPayload := none }
        else
          let uploaded := RESIZE_WIDTHS.filter env.resizeOk
          if RESIZE_WIDTHS.all env.resizeOk then
            if env.moveOk then
              { status := 200, sourceDeleted := false, sourceMoved := true,
                destWidths := RESIZE_WIDTHS, commitCalled := false,
                renditionsAttempted := true, exifPayload := some env.exif }
            else
              { status := 500, sourceDeleted := false, sourceMoved := false,
                destWidths := RESIZE_WIDTHS, commitCalled := false,
                renditionsAttempted := true, exifPayload := some env.exif }
          else
            { status := 500, sourceDeleted := false, sourceMoved := false,
              destWidths := uploaded.filter (fun w => !env.cleanupOk w),
              commitCalled := false, renditionsAttempted := true,
              exifPayload := some env.exif }
      else
        { status := 400, sourceDeleted := true, sourceMoved := false,
          destWidths := [], commitCalled := false,
          renditionsAttempted := false, exifPayload := none }
    else errorOutcome
  else errorOutcome

/-- A row of `public.images`, restricted to the columns the stored
procedures touch.  `updated_at` is a timestamp (`now()` at call time). -/
structure ImageRecord where
  processed_gcs_path : Option String
  exif : ExifMap
  processed_sizes : List (Nat × String)
  width : Option Int
  height : Option Int
  status : String
  updated_at : Nat
deriving DecidableEq, Repr

/-- `SELECT max(key::int)::text FROM jsonb_object_keys(processed_sizes_input)`
— the keys of the rendition map are the decimal width strings produced by
`processedSizes[r.width] = fileName`, modelled directly as naturals; `max`
over no rows is SQL NULL, modelled as `none`. -/
def maxWidthKey (m : List (Nat × String)) : Option Nat :=
  (m.map Prod.fst).maximum

/-- `processed_sizes_input ->> max_width_key`: jsonb field access by key,
NULL key or absent key giving NULL. -/
def jsonbGet (m : List (Nat × String)) : Option Nat → Option String
  | none => none
  | some k => (m.find? fun kv => kv.1 == k).map Prod.snd

/-- SQL `COALESCE(a, b)`. -/
def coalesce (a b : Option String) : Option String :=
  match a with
  | some x => some x
  | none => b

/-- `src/applied-sb-migrations/update_function.sql`: the 5-parameter
`update_image_processing_results(image_id_input, exif_data_input,
processed_sizes_input, width_input, height_input)`.  The single `UPDATE`
writes every column at once; the `WHERE id = image_id_input` row selection
is modelled by taking the matched row `r` as input and returning the
updated row. -/
def update_image_processing_results (r : ImageRecord) (exif_data_input : ExifMap)
    (processed_sizes_input : List (Nat × String))
    (width_input height_input : Int) (now : Nat) : ImageRecord :=
  let new_processed_gcs_path :=
    jsonbGet processed_sizes_input (maxWidthKey processed_sizes_input)
  { processed_gcs_path := coalesce new_processed_gcs_path r.processed_gcs_path,
    exif := exif_data_input,
    processed_sizes := processed_sizes_input,
    width := some width_input,
    height := some height_input,
    status := "ready",
    updated_at := now }

/-- `src/unnamed/part_000`: the 3-parameter
`update_image_processing_results(image_id_input, exif_data_input,
processed_sizes_input)` — the overload whose signature matches the RPC
call in part_001.  It leaves `processed_gcs_path`, `width`, `height`
untouched. -/
def update_image_processing_results_v0 (r : ImageRecord)
    (exif_data_input : ExifMap)
    (processed_sizes_input : List (Nat × String)) (now : Nat) : ImageRecord :=
  { r with
    exif := exif_data_input,
    processed_sizes := processed_sizes_input,
    status := "ready",
    updated_at := now }

/-- The named arguments part_001 passes to
`supabase.rpc('update_image_processing_results', ...)` (step 6), in source
order: `image_id_input`, `exif_data_input`, `processed_sizes_input`.
No width or height argument appears, and neither handler ever measures the
image dimensions. -/
def commitRpcParamNames : List String :=
  ["image_id_input", "exif_data_input", "processed_sizes_input"]

/-! ### Concrete environments and helper lemmas -/

/-- An invocation in which every external call succeeds: safe image of
width 1000, record present in both catalog variants, EXIF carrying an
embedded thumbnail. -/
def happyEnv : Env :=
  { sourceWidth := 1000, downloadOk := true, recordFound := true,
    existingImage := true, exifOk := true,
    exif := [("Make", "X"), ("ThumbnailImage", "BIN")],
    detections := ⟨Likelihood.UNLIKELY, Likelihood.UNLIKELY, Likelihood.UNLIKELY⟩,
    resizeOk := fun _ => true, cleanupOk := fun _ => true,
    rpcOk := true, moveOk := true }

/-- Like `happyEnv` but the width-400 resize subtask fails while every
other width succeeds. -/
def partialFailEnv : Env :=
  { happyEnv with resizeOk := fun w => w != 400 }

/-- An association list with a key `k` among its keys has a `find?` hit
whose key component is `k`. -/
theorem find_key_of_mem (m : List (Nat × String)) (k : Nat)
    (h : k ∈ m.map Prod.fst) :
    ∃ p, (m.find? fun kv => kv.1 == k) = some (k, p) ∧ (k, p) ∈ m := by
  induction m with
  | nil => simp at h
  | cons kv tl ih =>
    by_cases hk : kv.1 = k
    · refine ⟨kv.2, ?_, ?_⟩
      · simp only [List.find?_cons, hk, beq_self_eq_true, cond_true]
        rw [← hk]
      · rw [← hk]
        exact List.mem_cons_self _ _
    · have h' : k ∈ tl.map Prod.fst := by
        rcases List.mem_map.mp h with ⟨x, hx, hx1⟩
        rcases List.mem_cons.mp hx with hx | hx
        · exact absurd (hx ▸ hx1) hk
        · exact List.mem_map.mpr ⟨x, hx, hx1⟩
      rcases ih h' with ⟨p, hfind, hmem⟩
      refine ⟨p, ?_, List.mem_cons_of_mem _ hmem⟩
      have hbeq : (kv.1 == k) = false := by simp [hk]
      simp [List.find?_cons, hbeq, hfind]

/-! ### Claims about the catalog commit stored procedure -/

/-- Claim C8: invoking the catalog commit twice with the same identifier
and an identical payload leaves the record in the same terminal state as
invoking it once — every column written by the UPDATE other than the
`now()` timestamp is unchanged by the second call, the status remains
`ready`, and the rendition map is exactly the input map (so it acquires no
duplicate entries). -/
theorem c8_commit_idempotent (r : ImageRecord) (e : ExifMap)
    (m : List (Nat × String)) (w h : Int) (t₁ t₂ : Nat) :
    (update_image_processing_results
        (update_image_processing_results r e m w h t₁) e m w h t₂).processed_gcs_path
      = (update_image_processing_results r e m w h t₁).processed_gcs_path ∧
    (update_image_processing_results
        (update_image_processing_results r e m w h t₁) e m w h t₂).exif
      = (update_image_processing_results r e m w h t₁).exif ∧
    (update_image_processing_results
        (update_image_processing_results r e m w h t₁) e m w h t₂).processed_sizes
      = (update_image_processing_results r e m w h t₁).processed_sizes ∧
    (update_image_processing_results
        (update_image_processing_results r e m w h t₁) e m w h t₂).width
      = (update_image_processing_results r e m w h t₁).width ∧
    (update_image_processing_results
        (update_image_processing_results r e m w h t₁) e m w h t₂).height
      = (update_image_processing_results r e m w h t₁).height ∧
    (update_image_processing_results
        (update_image_processing_results r e m w h t₁) e m w h t₂).status = "ready" ∧
    (update_image_processing_results r e m w h t₁).processed_sizes = m := by
  cases hj : jsonbGet m (maxWidthKey m) with
  | none => simp [update_image_processing_results, coalesce, hj]
  | some p => simp [update_image_processing_results, coalesce, hj]

/-- Claim C9: a call of the 5-parameter commit procedure with a non-empty
rendition map sets `processed_gcs_path` to the path associated with the
numerically largest width key: the SQL computes
`max(key::int)` over the map keys and reads the map at that key. -/
theorem c9_path_is_largest_width (r : ImageRecord) (e : ExifMap)
    (m : List (Nat × String)) (w h : Int) (t : Nat) (k : Nat)
    (hmax : maxWidthKey m = some k) :
    k ∈ m.map Prod.fst ∧
    (∀ k' ∈ m.map Prod.fst, k' ≤ k) ∧
    ∃ p, (k, p) ∈ m ∧
      (update_image_processing_results r e m w h t).processed_gcs_path = some p := by
  have hmem : k ∈ m.map Prod.fst := List.maximum_mem hmax
  have hub : ∀ k' ∈ m.map Prod.fst, k' ≤ k := by
    intro k' hk'
    have := List.le_maximum_of_mem hk' hmax
    exact_mod_cast this
  rcases find_key_of_mem m k hmem with ⟨p, hfind, hmemp⟩
  refine ⟨hmem, hub, p, hmemp, ?_⟩
  simp [update_image_processing_results, jsonbGet, hmax, hfind, coalesce]

/-- Witness for C9 at a concrete record and rendition map. -/
theorem c9_path_is_largest_width_witness :
    (400 : Nat) ∈ ([(200, "a"), (400, "b")] : List (Nat × String)).map Prod.fst ∧
    (∀ k' ∈ ([(200, "a"), (400, "b")] : List (Nat × String)).map Prod.fst, k' ≤ 400) ∧
    ∃ p, ((400 : Nat), p) ∈ ([(200, "a"), (400, "b")] : List (Nat × String)) ∧
      (update_image_processing_results
        ⟨none, [], [], none, none, "pending", 0⟩ [] [(200, "a"), (400, "b")]
        800 600 5).processed_gcs_path = some p :=
  c9_path_is_largest_width ⟨none, [], [], none, none, "pending", 0⟩ []
    [(200, "a"), (400, "b")] 800 600 5 400 (by decide)

/-- Claim C10: a call of the 5-parameter commit procedure with an empty
rendition map leaves `processed_gcs_path` unchanged (the NULL max key makes
the COALESCE keep the current value), while `exif`, `processed_sizes`,
`width`, `height` are overwritten and the status is still set to `ready`. -/
theorem c10_empty_map_keeps_path (r : ImageRecord) (e : ExifMap)
    (w h : Int) (t : Nat) :
    update_image_processing_results r e [] w h t =
      { processed_gcs_path := r.processed_gcs_path, exif := e,
        processed_sizes := [], width := some w, height := some h,
        status := "ready", updated_at := t } := by
  simp [update_image_processing_results, maxWidthKey, jsonbGet, coalesce,
    List.maximum]

/-- Counterexample to claim C5: the only call of the catalog commit in the
codebase (part_001, step 6) passes exactly three named arguments — the
record identifier, the metadata mapping and the rendition map — and no
width or height argument, so the commit is not invoked with the measured
source width and height. -/
theorem c5_counterexample :
    commitRpcParamNames = ["image_id_input", "exif_data_input",
      "processed_sizes_input"] ∧
    "width_input" ∉ commitRpcParamNames ∧
    "height_input" ∉ commitRpcParamNames := by
  refine ⟨rfl, ?_, ?_⟩ <;> decide

/-- Claim C5 as amended: the commit is invoked with the record identifier,
the metadata mapping and the rendition map only (no width or height, which
the pipeline never measures); the stored procedure overload matching that
call — the 3-parameter `update_image_processing_results` of part_000 —
writes the metadata, the rendition map and terminal status `ready`
together in its single UPDATE statement, leaving `processed_gcs_path`,
`width` and `height` unchanged. -/
theorem c5_amended_commit_arguments (r : ImageRecord) (e : ExifMap)
    (m : List (Nat × String)) (t : Nat) :
    commitRpcParamNames = ["image_id_input", "exif_data_input",
      "processed_sizes_input"] ∧
    update_image_processing_results_v0 r e m t =
      { processed_gcs_path := r.processed_gcs_path, exif := e,
        processed_sizes := m, width := r.width, height := r.height,
        status := "ready", updated_at := t } := by
  exact ⟨rfl, rfl⟩

/-- Claim C4: the classification verdict is unsafe iff at least one of the
categories adult, violence, racy reports `LIKELY` or `VERY_LIKELY`; and on
an unsafe verdict both handler versions delete the source object and
return HTTP 200 with no rendition work and no catalog commit. -/
theorem c4_unsafe_verdict :
    (∀ d : SafeSearchResult, isUnsafe d = true ↔
      ((d.adult = Likelihood.LIKELY ∨ d.adult = Likelihood.VERY_LIKELY) ∨
       (d.violence = Likelihood.LIKELY ∨ d.violence = Likelihood.VERY_LIKELY) ∨
       (d.racy = Likelihood.LIKELY ∨ d.racy = Likelihood.VERY_LIKELY))) ∧
    (∀ (cand : List Int) (env : Env),
      env.downloadOk = true → env.recordFound = true →
      env.existingImage = true → env.exifOk = true →
      isUnsafe env.detections = true →
      processImage_v1 cand env =
        { status := 200, sourceDeleted := true, sourceMoved := false,
          destWidths := [], commitCalled := false,
          renditionsAttempted := false, exifPayload := none } ∧
      processImage_v0 cand env =
        { status := 200, sourceDeleted := true, sourceMoved := false,
          destWidths := [], commitCalled := false,
          renditionsAttempted := false, exifPayload := none }) := by
  constructor
  · intro d
    obtain ⟨a, v, r⟩ := d
    cases a <;> cases v <;> cases r <;> decide
  · intro cand env hdl hrec hex hexif huns
    constructor
    · simp [processImage_v1, hdl, hrec, hexif, huns]
    · simp [processImage_v0, hdl, hex, hexif, huns]

/-- Environment reporting `adult = VERY_LIKELY`, everything else healthy. -/
def unsafeEnv : Env :=
  { happyEnv with detections :=
      ⟨Likelihood.VERY_LIKELY, Likelihood.UNLIKELY, Likelihood.UNLIKELY⟩ }

/-- Witness for C4: on `unsafeEnv`, part_001's handler deletes the source
and answers 200 without renditions or commit. -/
theorem c4_unsafe_verdict_witness :
    processImage_v1 [200, 400] unsafeEnv =
      { status := 200, sourceDeleted := true, sourceMoved := false,
        destWidths := [], commitCalled := false,
        renditionsAttempted := false, exifPayload := none } :=
  (c4_unsafe_verdict.2 [200, 400] unsafeEnv rfl rfl rfl rfl (by decide)).1

/-- Counterexample to claim C3: in `src/index.js`, a valid safe image with
no matching catalog record is answered with HTTP 400 — not 404 — and the
source object IS deleted (`await originalFile.delete()` before
`res.status(400)`). -/
theorem c3_counterexample :
    (processImage_v0 [200] { happyEnv with existingImage := false }).status = 400 ∧
    (processImage_v0 [200] { happyEnv with existingImage := false }).sourceDeleted
      = true := by
  constructor <;> rfl

/-- Claim C3 as amended: in part_001's handler a missing catalog record
yields HTTP 404 with the source object neither deleted nor moved and no
commit; in index.js's handler the unregistered source object is instead
deleted and the response is 400. -/
theorem c3_amended_not_found (cand : List Int) (env : Env)
    (hdl : env.downloadOk = true) (hrec : env.recordFound = false)
    (_hsafe : isUnsafe env.detections = false) :
    (processImage_v1 cand env).status = 404 ∧
    (processImage_v1 cand env).sourceDeleted = false ∧
    (processImage_v1 cand env).sourceMoved = false ∧
    (processImage_v1 cand env).commitCalled = false := by
  simp [processImage_v1, hdl, hrec]

/-- Witness for C3 on a concrete not-found environment. -/
theorem c3_amended_not_found_witness :
    (processImage_v1 [200] { happyEnv with recordFound := false }).status = 404 ∧
    (processImage_v1 [200] { happyEnv with recordFound := false }).sourceDeleted
      = false ∧
    (processImage_v1 [200] { happyEnv with recordFound := false }).sourceMoved
      = false ∧
    (processImage_v1 [200] { happyEnv with recordFound := false }).commitCalled
      = false :=
  c3_amended_not_found [200] { happyEnv with recordFound := false }
    rfl rfl (by decide)

/-- Counterexample to claim C2: in part_001's handler, when the width-400
subtask fails after 200 and 600 succeeded, the invocation does return
Failed (500) but the successfully uploaded renditions are NOT deleted —
no cleanup code exists on that path — so destination objects from this
invocation's rendition set still exist. -/
theorem c2_counterexample :
    (processImage_v1 [200, 400, 600] partialFailEnv).status = 500 ∧
    (200 : Int) ∈ (processImage_v1 [200, 400, 600] partialFailEnv).destWidths ∧
    (600 : Int) ∈ (processImage_v1 [200, 400, 600] partialFailEnv).destWidths := by
  refine ⟨rfl, ?_, ?_⟩ <;> decide

/-- Claim C2 as amended: the compensating cleanup exists only in
`src/index.js`'s handler — there, when at least one rendition subtask
fails, the invocation returns 500 and every successfully uploaded
rendition is deleted from the destination bucket (assuming the individual
best-effort deletes succeed), leaving no destination object from this
invocation; part_001's handler performs no such cleanup. -/
theorem c2_amended_cleanup (cand : List Int) (env : Env)
    (hdl : env.downloadOk = true) (hexif : env.exifOk = true)
    (hex : env.existingImage = true)
    (hsafe : isUnsafe env.detections = false)
    (hfail : ∃ w ∈ cand, env.resizeOk w = false)
    (hclean : ∀ w, env.cleanupOk w = true) :
    (processImage_v0 cand env).status = 500 ∧
    (processImage_v0 cand env).destWidths = [] ∧
    (processImage_v0 cand env).sourceMoved = false := by
  have hall : cand.all env.resizeOk = false := by
    rcases hfail with ⟨w, hw, hfw⟩
    rw [Bool.eq_false_iff]
    intro hall
    have := (List.all_eq_true.mp hall) w hw
    rw [hfw] at this
    exact Bool.false_ne_true this
  have hnil : (cand.filter env.resizeOk).filter (fun w => !env.cleanupOk w) = [] := by
    apply List.filter_eq_nil_iff.mpr
    intro a _
    simp [hclean a]
  simp [processImage_v0, hdl, hexif, hex, hsafe, hall, hnil]

/-- Witness for C2 on a concrete partial-failure environment. -/
theorem c2_amended_cleanup_witness :
    (processImage_v0 [200, 400, 600] partialFailEnv).status = 500 ∧
    (processImage_v0 [200, 400, 600] partialFailEnv).destWidths = [] ∧
    (processImage_v0 [200, 400, 600] partialFailEnv).sourceMoved = false :=
  c2_amended_cleanup [200, 400, 600] partialFailEnv rfl rfl rfl (by decide)
    ⟨400, by decide, rfl⟩ (fun _ => rfl)

/-- Counterexample to claim C6: in part_001's handler, with the catalog
commit RPC succeeded (`rpcOk = true`, commit invoked) and only the final
relocation failing, the invocation reports HTTP 500 — the move error
reaches the catch block — not 200. -/
theorem c6_counterexample :
    ({ happyEnv with moveOk := false } : Env).rpcOk = true ∧
    (processImage_v1 [200] { happyEnv with moveOk := false }).commitCalled
      = true ∧
    (processImage_v1 [200] { happyEnv with moveOk := false }).status = 500 := by
  refine ⟨rfl, ?_, ?_⟩ <;> rfl

/-- Claim C6 as amended: when the catalog commit has succeeded but the
final relocation of the original fails, the invocation reports failure
(HTTP 500), not success — the move error propagates to the catch block even
though the record is already in status `ready`; the original is not moved
and the committed renditions remain. -/
theorem c6_amended_move_failure (cand : List Int) (env : Env)
    (hdl : env.downloadOk = true) (hrec : env.recordFound = true)
    (hexif : env.exifOk = true) (hsafe : isUnsafe env.detections = false)
    (hres : ∀ w ∈ cand, env.resizeOk w = true)
    (hrpc : env.rpcOk = true) (hmove : env.moveOk = false) :
    (processImage_v1 cand env).status = 500 ∧
    (processImage_v1 cand env).commitCalled = true ∧
    (processImage_v1 cand env).sourceMoved = false ∧
    (processImage_v1 cand env).destWidths = cand := by
  have hall : cand.all env.resizeOk = true := List.all_eq_true.mpr hres
  simp [processImage_v1, hdl, hrec, hexif, hsafe, hall, hrpc, hmove]

/-- Witness for C6 on a concrete environment in which only the move fails. -/
theorem c6_amended_move_failure_witness :
    (processImage_v1 [200] { happyEnv with moveOk := false }).status = 500 ∧
    (processImage_v1 [200] { happyEnv with moveOk := false }).commitCalled
      = true ∧
    (processImage_v1 [200] { happyEnv with moveOk := false }).sourceMoved
      = false ∧
    (processImage_v1 [200] { happyEnv with moveOk := false }).destWidths
      = [200] :=
  c6_amended_move_failure [200] { happyEnv with moveOk := false }
    rfl rfl rfl (by decide) (by decide) rfl rfl

/-- Counterexample to claim C7: `src/index.js` performs no stripping — the
metadata mapping it writes to the catalog (step 6,
`update with exif: exifData`) is the raw extracted mapping, embedded
thumbnail sub-field included. -/
theorem c7_counterexample :
    (processImage_v0 [200] happyEnv).exifPayload
      = some [("Make", "X"), ("ThumbnailImage", "BIN")] ∧
    "ThumbnailImage" ∈
      ([("Make", "X"), ("ThumbnailImage", "BIN")] : ExifMap).map Prod.fst := by
  refine ⟨rfl, ?_⟩
  decide

/-- Claim C7 as amended: only part_001's handler strips the embedded
binary sub-fields — it removes exactly the `ThumbnailImage` and
`PreviewImage` keys from the extracted mapping, keeps every other entry,
and the mapping it sends to the catalog commit is that sanitized mapping;
index.js retains and writes the raw mapping unstripped. -/
theorem c7_amended_exif_strip (m : ExifMap) (cand : List Int) (env : Env)
    (hdl : env.downloadOk = true) (hrec : env.recordFound = true)
    (hexif : env.exifOk = true) (hsafe : isUnsafe env.detections = false)
    (hres : ∀ w ∈ cand, env.resizeOk w = true) :
    "ThumbnailImage" ∉ (sanitizeExif m).map Prod.fst ∧
    "PreviewImage" ∉ (sanitizeExif m).map Prod.fst ∧
    (∀ kv ∈ m, kv.1 ≠ "ThumbnailImage" → kv.1 ≠ "PreviewImage" →
      kv ∈ sanitizeExif m) ∧
    sanitizeExif m ⊆ m ∧
    (processImage_v1 cand env).exifPayload = some (sanitizeExif env.exif) := by
  refine ⟨?_, ?_, ?_, ?_, ?_⟩
  · intro hmem
    rcases List.mem_map.mp hmem with ⟨kv, hkv, hfst⟩
    rcases List.mem_filter.mp hkv with ⟨-, hpred⟩
    rw [hfst] at hpred
    simp at hpred
  · intro hmem
    rcases List.mem_map.mp hmem with ⟨kv, hkv, hfst⟩
    rcases List.mem_filter.mp hkv with ⟨-, hpred⟩
    rw [hfst] at hpred
    simp at hpred
  · intro kv hkv h1 h2
    refine List.mem_filter.mpr ⟨hkv, ?_⟩
    simp [h1, h2]
  · intro kv hkv
    exact (List.mem_filter.mp hkv).1
  · have hall : cand.all env.resizeOk = true := List.all_eq_true.mpr hres
    cases hrpc : env.rpcOk <;> cases hmove : env.moveOk <;>
      simp [processImage_v1, hdl, hrec, hexif, hsafe, hall, hrpc, hmove]

/-- Witness for C7 on a concrete mapping and a fully successful run. -/
theorem c7_amended_exif_strip_witness :
    "ThumbnailImage" ∉
      (sanitizeExif [("Make", "X"), ("ThumbnailImage", "BIN")]).map Prod.fst ∧
    "PreviewImage" ∉
      (sanitizeExif [("Make", "X"), ("ThumbnailImage", "BIN")]).map Prod.fst ∧
    (∀ kv ∈ ([("Make", "X"), ("ThumbnailImage", "BIN")] : ExifMap),
      kv.1 ≠ "ThumbnailImage" → kv.1 ≠ "PreviewImage" →
      kv ∈ sanitizeExif [("Make", "X"), ("ThumbnailImage", "BIN")]) ∧
    sanitizeExif [("Make", "X"), ("ThumbnailImage", "BIN")] ⊆
      [("Make", "X"), ("ThumbnailImage", "BIN")] ∧
    (processImage_v1 [200] happyEnv).exifPayload
      = some (sanitizeExif happyEnv.exif) :=
  c7_amended_exif_strip [("Make", "X"), ("ThumbnailImage", "BIN")] [200]
    happyEnv rfl rfl rfl (by decide) (by decide)

/-- `processImage_v1` never produces a rendition width outside the
configured candidate list. -/
theorem destWidths_subset_v1 (cand : List Int) (env : Env) :
    (processImage_v1 cand env).destWidths ⊆ cand := by
  unfold processImage_v1
  repeat' split
  all_goals
    first
      | exact fun x hx => (List.mem_filter.mp hx).1
      | exact fun x hx => hx
      | simp [errorOutcome]

/-- `processImage_v0` never produces a rendition width outside the
configured candidate list. -/
theorem destWidths_subset_v0 (cand : List Int) (env : Env) :
    (processImage_v0 cand env).destWidths ⊆ cand := by
  unfold processImage_v0
  repeat' split
  all_goals
    first
      | exact fun x hx => (List.mem_filter.mp (List.mem_filter.mp hx).1).1
      | exact fun x hx => hx
      | simp [errorOutcome]

/-- Counterexample to claim C1: with candidate widths 200, 400, 1200 and a
source image of width 1000, a fully successful part_001 invocation
generates renditions at ALL three widths — the candidate 1200 ≥ 1000 is
not skipped, because neither handler ever measures or compares the source
width (an upscaled rendition is produced). -/
theorem c1_counterexample :
    happyEnv.sourceWidth = 1000 ∧
    (processImage_v1 (parseResizeWidths_v1 [200, 400, 1200]) happyEnv).status
      = 200 ∧
    (processImage_v1 (parseResizeWidths_v1 [200, 400, 1200]) happyEnv).destWidths
      = [200, 400, 1200] ∧
    ¬ (∀ w ∈ (processImage_v1 (parseResizeWidths_v1 [200, 400, 1200])
          happyEnv).destWidths, w < happyEnv.sourceWidth) := by
  refine ⟨rfl, rfl, rfl, ?_⟩
  intro hlt
  have h1200 := hlt 1200 (by decide)
  have : happyEnv.sourceWidth = 1000 := rfl
  omega

/-- Claim C1 as amended: the set of generated rendition widths is a subset
of the configured candidates, but it is NOT restricted by the measured
source width — the handlers never read the source width (both outcomes are
invariant under changing it), part_001 merely drops non-positive
configuration entries, and on a fully successful run every candidate width
produces a rendition, including widths ≥ the source width. -/
theorem c1_amended_no_width_filter (cand : List Int) (env : Env) (s : Int) :
    (processImage_v1 cand env).destWidths ⊆ cand ∧
    (processImage_v0 cand env).destWidths ⊆ cand ∧
    processImage_v1 cand { env with sourceWidth := s } =
      processImage_v1 cand env ∧
    processImage_v0 cand { env with sourceWidth := s } =
      processImage_v0 cand env ∧
    (env.downloadOk = true → env.recordFound = true → env.exifOk = true →
      isUnsafe env.detections = false →
      (∀ w ∈ cand, env.resizeOk w = true) →
      (processImage_v1 cand env).destWidths = cand) := by
  refine ⟨destWidths_subset_v1 cand env, destWidths_subset_v0 cand env,
    rfl, rfl, ?_⟩
  intro hdl hrec hexif hsafe hres
  have hall : cand.all env.resizeOk = true := List.all_eq_true.mpr hres
  cases hrpc : env.rpcOk <;> cases hmove : env.moveOk <;>
    simp [processImage_v1, hdl, hrec, hexif, hsafe, hall, hrpc, hmove]

/-- Witness for C1's amended statement: the candidates 200, 400, 1200 all
yield renditions on `happyEnv` (source width 1000). -/
theorem c1_amended_no_width_filter_witness :
    (processImage_v1 (parseResizeWidths_v1 [200, 400, 1200]) happyEnv).destWidths
      = parseResizeWidths_v1 [200, 400, 1200] :=
  (c1_amended_no_width_filter (parseResizeWidths_v1 [200, 400, 1200])
      happyEnv 5).2.2.2.2 rfl rfl rfl (by decide) (by decide)
